import Mathlib

/-!
Shallow embedding of the two React view components of this repository:
`Message` (src/sweagent/frontend/src/components/Message.js) and
`AgentMessage` (src/unnamed/part_000).  Both are pure functions from props
to a rendered tree plus one mouse-enter callback.  JavaScript values that
can appear in the item fields are modelled by `JSVal`; template-literal
interpolation and JSX truthiness follow the JavaScript and React semantics
of the source.
-/

namespace SWEFrontend

/-- JavaScript values occurring in item fields: null, undefined,
strings, and integers (the step index). -/
inductive JSVal where
  | null
  | undef
  | str (s : String)
  | int (k : Int)
deriving DecidableEq, Repr

/-- The DisplayItem record destructured by both components. -/
structure Item where
  format : JSVal
  step : JSVal
  title : JSVal
  message : JSVal
deriving DecidableEq, Repr

/-- JavaScript template-literal stringification of a value, as in
the source expression steps interpolated with a dollar-brace splice:
null prints "null", undefined prints "undefined". -/
def templateStr : JSVal → String
  | JSVal.null => "null"
  | JSVal.undef => "undefined"
  | JSVal.str s => s
  | JSVal.int k => toString k

/-- JavaScript truthiness of a value: null, undefined, the empty
string and 0 are falsy; everything else here is truthy. -/
def truthy : JSVal → Bool
  | JSVal.null => false
  | JSVal.undef => false
  | JSVal.str s => !(s == "")
  | JSVal.int k => !(k == 0)

/-- A node of the rendered tree: a text node or an element with a
tag, a class attribute and children. -/
inductive Node where
  | text (s : String)
  | elem (tag : String) (className : String) (children : List Node)

/-- Rendering of an interpolated JavaScript value as a JSX child:
React renders null and undefined as nothing, strings and numbers as
text. -/
def jsxChild : JSVal → List Node
  | JSVal.null => []
  | JSVal.undef => []
  | JSVal.str s => [Node.text s]
  | JSVal.int k => [Node.text (toString k)]

/-- Source line 6 of Message.js (identical in part_000 line 7):
stepClass is "step" followed by the interpolation of item.step when
item.step is strictly different from null, else the empty string. -/
def stepClass (item : Item) : String :=
  if item.step ≠ JSVal.null then "step" ++ templateStr item.step else ""

/-- Source line 7 of Message.js (identical in part_000 line 8):
highlightClass is "highlight" when isHighlighted, else empty. -/
def highlightClass (isHighlighted : Bool) : String :=
  if isHighlighted then "highlight" else ""

/-- The className template literal of both components:
"message ", then item.format, a space, stepClass, a space,
highlightClass. -/
def className (item : Item) (isHighlighted : Bool) : String :=
  "message " ++ templateStr item.format ++ " " ++ stepClass item ++ " "
    ++ highlightClass isHighlighted

/-- The four space-separated components of the className template
literal, in source order. -/
def classComponents (item : Item) (isHighlighted : Bool) : List String :=
  ["message", templateStr item.format, stepClass item,
    highlightClass isHighlighted]

/-- Joining a list of strings with single spaces. -/
def joinSpaces : List String → String
  | [] => ""
  | [s] => s
  | s :: rest => s ++ " " ++ joinSpaces rest

/-- The output of one render: the class attribute of the outer div,
its children, and the mouse-enter handler, modelled as the list of
callback invocation results produced by one trigger of the event. -/
structure Rendered (α : Type) where
  className : String
  children : List Node
  onMouseEnter : Unit → List α

/-- The Message component (Message.js lines 5 to 18): an outer div
with the composed class name, an h4 holding item.title, a span
holding item.message, and a mouse-enter arrow function that calls
handleMouseEnter once with item and feedRef. -/
def Message {ρ α : Type} (item : Item) (handleMouseEnter : Item → ρ → α)
    (isHighlighted : Bool) (feedRef : ρ) : Rendered α :=
  { className := className item isHighlighted
    children := [Node.elem "h4" "" (jsxChild item.title),
      Node.elem "span" "" (jsxChild item.message)]
    onMouseEnter := fun _ => [handleMouseEnter item feedRef] }

/-- The conditional title of AgentMessage (part_000 line 15):
item.title && span.  When item.title is truthy the badge span is
rendered; otherwise the falsy value itself is the child, which React
renders as nothing for null and undefined and as text otherwise. -/
def agentTitleNodes (title : JSVal) : List Node :=
  if truthy title then
    [Node.elem "span" "agentMessageTitle badge badge-dark" (jsxChild title)]
  else jsxChild title

/-- The AgentMessage component (part_000 lines 6 to 19): same outer
div and class name as Message, the conditional badge title, and the
message span. -/
def AgentMessage {ρ α : Type} (item : Item) (handleMouseEnter : Item → ρ → α)
    (isHighlighted : Bool) (feedRef : ρ) : Rendered α :=
  { className := className item isHighlighted
    children := agentTitleNodes item.title ++
      [Node.elem "span" "" (jsxChild item.message)]
    onMouseEnter := fun _ => [handleMouseEnter item feedRef] }

/-- Recogniser for the AgentMessage title badge element. -/
def isAgentTitleElem : Node → Bool
  | Node.text _ => false
  | Node.elem tag cls _ =>
      tag == "span" && cls == "agentMessageTitle badge badge-dark"

/-- Recogniser for the Message title heading element. -/
def isTitleHeading : Node → Bool
  | Node.text _ => false
  | Node.elem tag _ _ => tag == "h4"

/-- The class-name computation as the specification words it: the
concatenation, joined by spaces, of the base class, item.format, the
step token ("step" plus item.step when step is present, else the
empty token) and the highlight token ("highlight" when highlighted,
else the empty token), in that order.  Absence of step is null, as
in the specification data model. -/
def specClassName (item : Item) (isHighlighted : Bool) : String :=
  joinSpaces ["message", templateStr item.format,
    if item.step ≠ JSVal.null then "step" ++ templateStr item.step else "",
    if isHighlighted then "highlight" else ""]

/-- Bool test for a step-shaped token: the string starts with "step". -/
def startsWithStep (t : String) : Bool := "step".data.isPrefixOf t.data

/-- Concrete item from the specification example: format info, step 2,
title "Step 2", message "Running tests". -/
def itemInfo2 : Item :=
  { format := JSVal.str "info", step := JSVal.int 2,
    title := JSVal.str "Step 2", message := JSVal.str "Running tests" }

/-- Concrete item from the specification example: format agent, step
null, empty title. -/
def itemAgent : Item :=
  { format := JSVal.str "agent", step := JSVal.null,
    title := JSVal.str "", message := JSVal.str "Thinking..." }

/-- Concrete item whose optional fields are all undefined. -/
def itemUndef : Item :=
  { format := JSVal.str "info", step := JSVal.undef,
    title := JSVal.undef, message := JSVal.str "m" }

/-- Concrete callback that records its two arguments unchanged. -/
def recHandler : Item → Nat → Item × Nat := fun i r => (i, r)

theorem className_eq_join (item : Item) (hl : Bool) :
    className item hl = joinSpaces (classComponents item hl) := by
  simp [className, classComponents, joinSpaces, String.append_assoc]

theorem stepClass_ne_highlight (item : Item) : stepClass item ≠ "highlight" := by
  unfold stepClass
  split
  · intro h
    have h2 := congrArg String.data h
    simp [String.data_append] at h2
  · decide

theorem jsxChild_no_agentTitle (v : JSVal) :
    (jsxChild v).any isAgentTitleElem = false := by
  cases v <;> simp [jsxChild, isAgentTitleElem]

/-- Claim C1: for every item and highlight state, AgentMessage renders
the title badge element exactly when item.title is truthy, while
Message always renders the h4 title element, even for an empty or
absent title. -/
theorem title_element_iff {ρ α : Type} (item : Item) (h : Item → ρ → α)
    (hl : Bool) (r : ρ) :
    ((AgentMessage item h hl r).children.any isAgentTitleElem) = truthy item.title ∧
    ((Message item h hl r).children.any isTitleHeading) = true := by
  constructor
  · cases htitle : truthy item.title <;>
      simp [AgentMessage, agentTitleNodes, htitle, isAgentTitleElem,
        jsxChild_no_agentTitle]
  · simp [Message, isTitleHeading]

/-- Claim C2: the class-name string produced by Message (and by
AgentMessage) equals the space-joined concatenation of the base class,
item.format, the step token when step is present (else empty) and the
highlight token when highlighted (else empty), in that order. -/
theorem class_string_spec {ρ α : Type} (item : Item) (h : Item → ρ → α)
    (hl : Bool) (r : ρ) :
    (Message item h hl r).className = specClassName item hl ∧
    (AgentMessage item h hl r).className = specClassName item hl := by
  have hs : specClassName item hl = joinSpaces (classComponents item hl) := rfl
  exact ⟨by rw [hs]; exact className_eq_join item hl,
    by rw [hs]; exact className_eq_join item hl⟩

/-- Claim C3: when item.step is null, the step component of the class
name is empty and, provided the format tag is not itself a step-shaped
string, no component of the class name of either view starts with
"step". -/
theorem step_null_no_step_token (item : Item) (hl : Bool)
    (hstep : item.step = JSVal.null)
    (hfmt : startsWithStep (templateStr item.format) = false) :
    stepClass item = "" ∧
    ∀ t ∈ classComponents item hl, startsWithStep t = false := by
  have hsc : stepClass item = "" := by simp [stepClass, hstep]
  refine ⟨hsc, ?_⟩
  intro t ht
  simp only [classComponents, hsc, List.mem_cons, List.not_mem_nil, or_false] at ht
  rcases ht with h1 | h1 | h1 | h1 <;> subst h1
  · decide
  · exact hfmt
  · decide
  · cases hl <;> simp [highlightClass] <;> decide

/-- Claim C4: when item.step is the integer k, the class name of both
views contains the token "step" followed by k. -/
theorem step_token_present {ρ α : Type} (item : Item) (h : Item → ρ → α)
    (hl : Bool) (r : ρ) (k : Int) (hstep : item.step = JSVal.int k) :
    ("step" ++ toString k) ∈ classComponents item hl ∧
    (Message item h hl r).className = joinSpaces (classComponents item hl) ∧
    (AgentMessage item h hl r).className = joinSpaces (classComponents item hl) := by
  refine ⟨?_, className_eq_join item hl, className_eq_join item hl⟩
  have hsc : stepClass item = "step" ++ toString k := by
    simp [stepClass, hstep, templateStr]
  simp [classComponents, hsc]

/-- Claim C5: the class name contains the token "highlight" exactly
when isHighlighted is true, provided the format tag is not itself the
string "highlight". -/
theorem highlight_token_iff (item : Item) (hl : Bool)
    (hfmt : templateStr item.format ≠ "highlight") :
    ("highlight" ∈ classComponents item hl ↔ hl = true) := by
  cases hl
  · simp only [classComponents, highlightClass, if_neg Bool.false_ne_true]
    constructor
    · intro hmem
      simp only [List.mem_cons, List.not_mem_nil, or_false] at hmem
      rcases hmem with h1 | h1 | h1 | h1
      · exact absurd h1 (by decide)
      · exact absurd h1.symm hfmt
      · exact absurd h1.symm (stepClass_ne_highlight item)
      · exact absurd h1 (by decide)
    · intro h1
      exact absurd h1 (by decide)
  · simp [classComponents, highlightClass]

/-- Claim C6: one trigger of the mouse-enter handler of either view
invokes the provided callback exactly once, with the original item
and the original container reference passed unchanged. -/
theorem hover_callback_once {ρ α : Type} (item : Item) (h : Item → ρ → α)
    (hl : Bool) (r : ρ) :
    (Message item h hl r).onMouseEnter () = [h item r] ∧
    (AgentMessage item h hl r).onMouseEnter () = [h item r] ∧
    ((Message item h hl r).onMouseEnter ()).length = 1 ∧
    ((AgentMessage item h hl r).onMouseEnter ()).length = 1 :=
  ⟨rfl, rfl, rfl, rfl⟩

/-- Claim C7: for every input, AgentMessage computes exactly the same
class-name string as Message. -/
theorem agent_className_eq_message {ρ α : Type} (item : Item)
    (h : Item → ρ → α) (hl : Bool) (r : ρ) :
    (AgentMessage item h hl r).className = (Message item h hl r).className := rfl

/-- Claim C8: rendering is total for every item; the embedding has no
failure branch because the source has none, and absent optional fields
degrade gracefully: an undefined or null value renders as no content,
an undefined title leaves the Message heading empty and makes
AgentMessage omit the title entirely. -/
theorem render_total_graceful {ρ α : Type} (item : Item) (h : Item → ρ → α)
    (hl : Bool) (r : ρ) :
    (Message item h hl r).children =
      [Node.elem "h4" "" (jsxChild item.title),
        Node.elem "span" "" (jsxChild item.message)] ∧
    (AgentMessage item h hl r).children =
      agentTitleNodes item.title ++ [Node.elem "span" "" (jsxChild item.message)] ∧
    jsxChild JSVal.undef = [] ∧ jsxChild JSVal.null = [] ∧
    (Message { item with title := JSVal.undef } h hl r).children =
      [Node.elem "h4" "" [], Node.elem "span" "" (jsxChild item.message)] ∧
    (AgentMessage { item with title := JSVal.undef } h hl r).children =
      [Node.elem "span" "" (jsxChild item.message)] :=
  ⟨rfl, rfl, rfl, rfl, rfl, rfl⟩

/-- Claim C9: both views are deterministic: two invocations with equal
inputs produce equal outputs; there is no hidden state in the
embedding because the source reads none. -/
theorem render_deterministic {ρ α : Type} (i1 i2 : Item)
    (h1 h2 : Item → ρ → α) (b1 b2 : Bool) (r1 r2 : ρ)
    (hi : i1 = i2) (hh : h1 = h2) (hb : b1 = b2) (hr : r1 = r2) :
    Message i1 h1 b1 r1 = Message i2 h2 b2 r2 ∧
    AgentMessage i1 h1 b1 r1 = AgentMessage i2 h2 b2 r2 := by
  subst hi; subst hh; subst hb; subst hr
  exact ⟨rfl, rfl⟩

/-- Claim C10: when item.step is undefined rather than null, the
strict comparison with null is still true, so the step token is the
string "stepundefined" and it appears in the class name of both
views. -/
theorem step_undefined_token {ρ α : Type} (item : Item) (h : Item → ρ → α)
    (hl : Bool) (r : ρ) (hstep : item.step = JSVal.undef) :
    stepClass item = "stepundefined" ∧
    "stepundefined" ∈ classComponents item hl ∧
    (Message item h hl r).className = joinSpaces (classComponents item hl) ∧
    (AgentMessage item h hl r).className = joinSpaces (classComponents item hl) := by
  have hsc : stepClass item = "stepundefined" := by
    simp [stepClass, hstep, templateStr]
  exact ⟨hsc, by simp [classComponents, hsc],
    className_eq_join item hl, className_eq_join item hl⟩

/-- Witness for claim C3 at the specification example item with step
null and format "agent". -/
theorem step_null_no_step_token_witness :
    stepClass itemAgent = "" ∧
    ∀ t ∈ classComponents itemAgent true, startsWithStep t = false :=
  step_null_no_step_token itemAgent true rfl (by decide)

/-- Witness for claim C4 at the specification example item with step
2 and format "info". -/
theorem step_token_present_witness :
    ("step" ++ toString (2 : Int)) ∈ classComponents itemInfo2 false ∧
    (Message itemInfo2 recHandler false 0).className =
      joinSpaces (classComponents itemInfo2 false) ∧
    (AgentMessage itemInfo2 recHandler false 0).className =
      joinSpaces (classComponents itemInfo2 false) :=
  step_token_present itemInfo2 recHandler false 0 2 rfl

/-- Witness for claim C5 at the item with format "info", in both
highlight states. -/
theorem highlight_token_iff_witness :
    ("highlight" ∈ classComponents itemInfo2 true ↔ true = true) ∧
    ("highlight" ∈ classComponents itemInfo2 false ↔ false = true) :=
  ⟨highlight_token_iff itemInfo2 true (by decide),
    highlight_token_iff itemInfo2 false (by decide)⟩

/-- Witness for claim C9 at a concrete item, handler, highlight state
and container reference. -/
theorem render_deterministic_witness :
    Message itemInfo2 recHandler true 0 = Message itemInfo2 recHandler true 0 ∧
    AgentMessage itemInfo2 recHandler true 0 =
      AgentMessage itemInfo2 recHandler true 0 :=
  render_deterministic itemInfo2 itemInfo2 recHandler recHandler
    true true 0 0 rfl rfl rfl rfl

/-- Witness for claim C10 at a concrete item whose step field is
undefined. -/
theorem step_undefined_token_witness :
    stepClass itemUndef = "stepundefined" ∧
    "stepundefined" ∈ classComponents itemUndef true ∧
    (Message itemUndef recHandler true 0).className =
      joinSpaces (classComponents itemUndef true) ∧
    (AgentMessage itemUndef recHandler true 0).className =
      joinSpaces (classComponents itemUndef true) :=
  step_undefined_token itemUndef recHandler true 0 rfl

end SWEFrontend
